import Mathlib

/-!
Shallow embedding of the Clinical Case Authoring & Assessment Engine of the
DoctorSimulation repository:

* `src/app.py` — diagnosis evaluation (`normalize_diagnosis`,
  `calculate_keyword_similarity`, `calculate_synonym_similarity`,
  `generate_diagnosis_feedback`, `evaluate_diagnosis`, `MEDICAL_SYNONYMS`),
* `src/utils/medical_validation.py` — `MedicalValidationSystem` (the knowledge
  base is a parameter: the JSON file it loads is data, not code),
* `src/utils/ai_case_generator.py` — `validate_ai_response` and
  `generate_patient_case` (the external LLM collaborator, the environment and
  `json.loads` are modelled as an explicit environment record; the prompt text
  built by `generate_case_generation_prompt` is not modelled because no
  modelled observable depends on it — the collaborator response is universally
  quantified).

Python strings are `List Char`; Python floats are modelled as exact rationals
(`ℚ`): every constant of the source (0.4, 0.3, 0.9, 0.7, 0.85, 0.60, …) is a
dyadic-free small rational and all comparisons settled here are far from any
rounding boundary.  `str.lower` is modelled by `Char.toLower` (exact on ASCII,
which covers every literal in the source tables).  `difflib.SequenceMatcher`
is embedded exactly as in CPython for inputs shorter than 200 characters
(below that length the `autojunk` heuristic of CPython is a no-op, so the
embedding and CPython agree on all inputs considered here).
-/

namespace DoctorSim

set_option maxRecDepth 100000

abbrev Str := List Char

/-- Coerce a Lean string literal to the `List Char` representation used for
Python strings throughout the embedding. -/
def lit (s : String) : Str := s.data

/-! Rational arithmetic: Mathlib marks `Rat.add`, `Rat.mul` and `Rat.div`
`@[irreducible]`, so closed theorems about concrete scores could not be
settled by kernel reduction through them.  The embedding therefore computes
with the kernel-reducible `mkRat` and the wrappers below; the bridge lemmas
`qAdd_eq`, `qMul_eq` and `qMax_eq` (proved in the lemma section) state that
they are exactly `+`, `*` and `max` on `ℚ`. -/

/-- Addition on `ℚ` via `mkRat` (equal to `+`, see `qAdd_eq`). -/
def qAdd (a b : ℚ) : ℚ := mkRat (a.num * b.den + b.num * a.den) (a.den * b.den)

/-- Multiplication on `ℚ` via `mkRat` (equal to `*`, see `qMul_eq`). -/
def qMul (a b : ℚ) : ℚ := mkRat (a.num * b.num) (a.den * b.den)

/-- Python `max` on two rationals (equal to `max`, see `qMax_eq`). -/
def qMax (a b : ℚ) : ℚ := if a ≤ b then b else a

/-- Python `needle in hay` on strings: substring containment. -/
def substrB (needle hay : Str) : Bool := decide (needle <:+: hay)

/-- Python `str.lower` (ASCII-exact). -/
def lowerStr (s : Str) : Str := s.map Char.toLower

/-- Python whitespace characters recognised by `str.strip()` / `str.split()`. -/
def isPyWs (c : Char) : Bool :=
  c == ' ' || c == '\t' || c == '\n' || c == '\r' || c == '\x0b' || c == '\x0c'

/-- Python `str.strip()`. -/
def pyStrip (s : Str) : Str :=
  ((s.dropWhile isPyWs).reverse.dropWhile isPyWs).reverse

/-- Helper for `pySplit`: accumulates the current word (reversed). -/
def splitAux : Str → Str → List Str
  | [], cur => if cur = [] then [] else [cur.reverse]
  | c :: rest, cur =>
    if isPyWs c then
      if cur = [] then splitAux rest [] else cur.reverse :: splitAux rest []
    else splitAux rest (c :: cur)

/-- Python `str.split()` with no separator: split on whitespace runs,
dropping empty pieces. -/
def pySplit (s : Str) : List Str := splitAux s []

/-- Python `sep.join(xs)`. -/
def pyJoin (sep : Str) : List Str → Str
  | [] => []
  | x :: xs => xs.foldl (fun acc y => acc ++ sep ++ y) x

/-- Python `str(n)` for a Lean `Int`. -/
def intStr (n : Int) : Str := (toString n).data

/-- Python `str(n)` for a Lean `Nat`. -/
def natStr (n : Nat) : Str := (toString n).data

/-! ## difflib.SequenceMatcher (CPython, `isjunk=None`, inputs < 200 chars)

`flmInner` is one row of `find_longest_match`'s dynamic program:
`j2len` is the previous row (length run ending at each `j`), the fold builds
the new row over exactly the column indices `j ∈ [blo, bhi)` with
`b[j] == a[i]`, in increasing order, as CPython's `b2j` loop does.  With no
junk characters the two junk-extension `while` loops of CPython are no-ops, so
they are omitted. -/

def flmInner (aCh : Char) (b : Str) (blo bhi i : Nat) (j2len : List Nat)
    (best : Nat × Nat × Nat) : List Nat × (Nat × Nat × Nat) :=
  ((List.range' blo (bhi - blo)).filter (fun j => b.getD j ' ' == aCh)).foldl
    (fun acc j =>
      let k := (if j = 0 then 0 else j2len.getD (j - 1) 0) + 1
      let row := acc.1.set j k
      let best := if k > acc.2.2.2 then (i + 1 - k, j + 1 - k, k) else acc.2
      (row, best))
    (List.replicate b.length 0, best)

/-- CPython `SequenceMatcher.find_longest_match(alo, ahi, blo, bhi)`:
returns `(besti, bestj, bestsize)`. -/
def findLongestMatch (a b : Str) (alo ahi blo bhi : Nat) : Nat × Nat × Nat :=
  ((List.range' alo (ahi - alo)).foldl
    (fun acc i => flmInner (a.getD i ' ') b blo bhi i acc.1 acc.2)
    (List.replicate b.length 0, (alo, blo, 0))).2

/-- Total number of matched characters over `get_matching_blocks`'s
divide-and-conquer (the block list is only ever used through this sum in
`ratio`).  Fuel strictly exceeds the maximal recursion depth: each recursive
call shrinks `(ahi - alo) + (bhi - blo)` by at least one. -/
def matchedTotalAux (a b : Str) : Nat → Nat → Nat → Nat → Nat → Nat
  | 0, _, _, _, _ => 0
  | fuel + 1, alo, ahi, blo, bhi =>
    let m := findLongestMatch a b alo ahi blo bhi
    if m.2.2 = 0 then 0
    else
      m.2.2 + matchedTotalAux a b fuel alo m.1 blo m.2.1
        + matchedTotalAux a b fuel (m.1 + m.2.2) ahi (m.2.1 + m.2.2) bhi

def matchedTotal (a b : Str) : Nat :=
  matchedTotalAux a b (a.length + b.length + 1) 0 a.length 0 b.length

/-- CPython `SequenceMatcher(None, a, b).ratio()`:
`2*M / (len(a)+len(b))`, and 1.0 when both strings are empty. -/
def seqRatio (a b : Str) : ℚ :=
  if a.length + b.length = 0 then 1
  else mkRat (2 * (matchedTotal a b : Int)) (a.length + b.length)

/-! ## Diagnosis evaluation (`src/app.py`) -/

/-- `MEDICAL_SYNONYMS` table of `src/app.py` (lines 100-121): canonical
condition name paired with its accepted synonyms/abbreviations. -/
def MEDICAL_SYNONYMS : List (Str × List Str) :=
  [ (lit ("heart attack"),
      [lit ("myocardial infarction"), lit ("mi"), lit ("acute mi"),
       lit ("acute myocardial infarction"), lit ("stemi"), lit ("nstemi")]),
    (lit ("stroke"),
      [lit ("cva"), lit ("cerebrovascular accident"), lit ("brain attack"),
       lit ("cerebral infarction")]),
    (lit ("pneumonia"),
      [lit ("lung infection"), lit ("pulmonary infection"), lit ("chest infection")]),
    (lit ("appendicitis"),
      [lit ("acute appendicitis"), lit ("inflamed appendix")]),
    (lit ("migraine"),
      [lit ("migraine headache"), lit ("severe headache"), lit ("vascular headache")]),
    (lit ("diabetes"),
      [lit ("diabetes mellitus"), lit ("dm"), lit ("type 1 diabetes"),
       lit ("type 2 diabetes")]),
    (lit ("hypertension"),
      [lit ("high blood pressure"), lit ("elevated blood pressure"), lit ("htn")]),
    (lit ("asthma"),
      [lit ("bronchial asthma"), lit ("reactive airway disease")]),
    (lit ("copd"),
      [lit ("chronic obstructive pulmonary disease"), lit ("emphysema"),
       lit ("chronic bronchitis")]),
    (lit ("uti"),
      [lit ("urinary tract infection"), lit ("bladder infection"), lit ("cystitis")]),
    (lit ("gastritis"),
      [lit ("stomach inflammation"), lit ("gastric inflammation")]),
    (lit ("bronchitis"),
      [lit ("acute bronchitis"), lit ("chest cold")]),
    (lit ("sinusitis"),
      [lit ("sinus infection"), lit ("acute sinusitis")]),
    (lit ("pharyngitis"),
      [lit ("sore throat"), lit ("throat infection"), lit ("strep throat")]),
    (lit ("cellulitis"),
      [lit ("skin infection"), lit ("soft tissue infection")]),
    (lit ("gout"),
      [lit ("gouty arthritis"), lit ("acute gout")]),
    (lit ("kidney stones"),
      [lit ("renal calculi"), lit ("nephrolithiasis"), lit ("kidney stone")]),
    (lit ("gallstones"),
      [lit ("cholelithiasis"), lit ("gallbladder stones")]),
    (lit ("acid reflux"),
      [lit ("gerd"), lit ("gastroesophageal reflux disease"), lit ("heartburn")]),
    (lit ("panic attack"),
      [lit ("anxiety attack"), lit ("panic disorder")]) ]

/-- Qualifier words dropped by `normalize_diagnosis` (`common_removals`). -/
def COMMON_REMOVALS : List Str :=
  [lit ("acute"), lit ("chronic"), lit ("mild"), lit ("moderate"), lit ("severe"),
   lit ("primary"), lit ("secondary"), lit ("syndrome"), lit ("disease"),
   lit ("disorder"), lit ("condition"), lit ("episode"), lit ("attack")]

/-- Python `re.sub(r'[^\w]', '', word)` keeps word characters (ASCII scope). -/
def isWordChar (c : Char) : Bool := c.isAlphanum || c == '_'

/-- `normalize_diagnosis` of `src/app.py`: lowercase, strip, split on
whitespace, strip punctuation from each word, drop qualifier words, re-join
with single spaces. -/
def normalize_diagnosis (diagnosis : Str) : Str :=
  let normalized := pyStrip (lowerStr diagnosis)
  let filtered := (pySplit normalized).filterMap (fun w =>
    let clean := w.filter isWordChar
    if clean ≠ [] ∧ clean ∉ COMMON_REMOVALS then some clean else none)
  pyJoin (lit (" ")) filtered

/-- `calculate_keyword_similarity` of `src/app.py`: maximum of the Jaccard
index and the coverage ratio of the two word sets (Python `set`s are modelled
by deduplicated lists; only their sizes are used). -/
def calculate_keyword_similarity (user_diagnosis correct_diagnosis : Str) : ℚ :=
  let user_words := (pySplit user_diagnosis).dedup
  let correct_words := (pySplit correct_diagnosis).dedup
  if correct_words = [] then 0
  else
    let inter := user_words.inter correct_words
    let uni := user_words.union correct_words
    let jaccard : ℚ := if uni = [] then 0 else mkRat inter.length uni.length
    let overlap : ℚ := mkRat inter.length correct_words.length
    qMax jaccard overlap

/-- `calculate_synonym_similarity` of `src/app.py` (lines 1635-1666): works on
the raw (lowercased, stripped) argument strings, not the normalized ones. -/
def calculate_synonym_similarity (user_diagnosis correct_diagnosis : Str) : ℚ :=
  let user_clean := pyStrip (lowerStr user_diagnosis)
  let correct_clean := pyStrip (lowerStr correct_diagnosis)
  if user_clean = correct_clean then 1
  else
    MEDICAL_SYNONYMS.foldl
      (fun max_similarity g =>
        let all_terms := g.1 :: g.2
        let user_match := all_terms.any (fun t => substrB t user_clean)
        let correct_match := all_terms.any (fun t => substrB t correct_clean)
        if user_match && correct_match then qMax max_similarity (mkRat 9 10)
        else if user_match || correct_match then
          if substrB g.1 user_clean || substrB g.1 correct_clean then
            qMax max_similarity (mkRat 7 10)
          else max_similarity
        else max_similarity)
      0

/-- `generate_diagnosis_feedback` of `src/app.py` (tiered feedback text; the
two diagnosis string arguments are unused in the source as well). -/
def generate_diagnosis_feedback (similarity_score : ℚ)
    (is_correct is_close : Bool) : Str :=
  if is_correct then lit ("Excellent! You correctly identified the condition.")
  else if is_close then
    if similarity_score > mkRat 3 4 then
      lit ("Very close! You\x27re on the right track. Consider being more specific or check your spelling.")
    else
      lit ("You\x27re thinking in the right direction. The condition is related to what you\x27ve identified.")
  else if similarity_score > mkRat 2 5 then
    lit ("Some elements of your diagnosis are relevant, but the overall condition is different. Review the primary symptoms and their pattern.")
  else if similarity_score > mkRat 1 5 then
    lit ("Your diagnosis touches on relevant medical areas, but doesn\x27t match the patient\x27s condition. Consider other possibilities.")
  else
    lit ("This diagnosis doesn\x27t match the patient\x27s condition. Review the symptoms, patient history, and examination findings more carefully.")

/-- Result record of `evaluate_diagnosis` (the Python dict's keys become
fields; the exception fallback of the source is unreachable in the pure
embedding). -/
structure EvaluationResult where
  is_correct : Bool
  is_close : Bool
  similarity_score : ℚ
  feedback : Str
  sequence_similarity : ℚ
  keyword_similarity : ℚ
  synonym_similarity : ℚ
deriving DecidableEq, Repr

/-- `evaluate_diagnosis` of `src/app.py` (lines 1504-1583). -/
def evaluate_diagnosis (user_diagnosis correct_diagnosis : Str) : EvaluationResult :=
  let user_clean := normalize_diagnosis user_diagnosis
  let correct_clean := normalize_diagnosis correct_diagnosis
  let sequence_similarity := seqRatio user_clean correct_clean
  let keyword_similarity := calculate_keyword_similarity user_clean correct_clean
  let synonym_similarity := calculate_synonym_similarity user_diagnosis correct_diagnosis
  let combined_score :=
    qMax (qMax (qAdd (qAdd (qMul sequence_similarity (mkRat 2 5))
              (qMul keyword_similarity (mkRat 3 10)))
            (qMul synonym_similarity (mkRat 3 10)))
          sequence_similarity)
      synonym_similarity
  let is_correct := decide (combined_score ≥ mkRat 17 20)
  let is_close := decide (mkRat 3 5 ≤ combined_score ∧ combined_score < mkRat 17 20)
  { is_correct := is_correct
    is_close := is_close
    similarity_score := combined_score
    feedback := generate_diagnosis_feedback combined_score is_correct is_close
    sequence_similarity := sequence_similarity
    keyword_similarity := keyword_similarity
    synonym_similarity := synonym_similarity }

/-- Per-group synonym contribution as the source actually computes it: 0.9
when both sides contain a term of the group; 0.7 when one side contains a
term and the canonical name occurs in user or correct string (when exactly
one side matches, the canonical name can only occur in that matching side);
0 otherwise. -/
def synGroupScore (user_clean correct_clean : Str) (g : Str × List Str) : ℚ :=
  let all_terms := g.1 :: g.2
  let user_match := all_terms.any (fun t => substrB t user_clean)
  let correct_match := all_terms.any (fun t => substrB t correct_clean)
  if user_match && correct_match then mkRat 9 10
  else if (user_match || correct_match)
      && (substrB g.1 user_clean || substrB g.1 correct_clean) then mkRat 7 10
  else 0

/-- Modelled from the spec (claim C3 wording, §4.4 step 4), NOT from the
source — the refinement target: a group contributes 0.9 when both sides
contain one of its terms, and 0.7 when exactly one side contains a term
*only if the canonical group name itself literally appears in the other
side*; the result is the maximum contribution, 0.0 when no group matches. -/
def synonymSimilaritySpec (user_diagnosis correct_diagnosis : Str) : ℚ :=
  let u := pyStrip (lowerStr user_diagnosis)
  let c := pyStrip (lowerStr correct_diagnosis)
  (MEDICAL_SYNONYMS.map (fun g =>
    let all_terms := g.1 :: g.2
    let user_match := all_terms.any (fun t => substrB t u)
    let correct_match := all_terms.any (fun t => substrB t c)
    if user_match && correct_match then mkRat 9 10
    else if user_match && !correct_match && substrB g.1 c then mkRat 7 10
    else if correct_match && !user_match && substrB g.1 u then mkRat 7 10
    else 0)).foldr qMax 0

/-- The behaviour `calculate_synonym_similarity` actually has, stated
declaratively: 1.0 for equal cleaned strings, otherwise the maximum
`synGroupScore` over the synonym groups. -/
def synonymSimilarityAmended (user_diagnosis correct_diagnosis : Str) : ℚ :=
  let u := pyStrip (lowerStr user_diagnosis)
  let c := pyStrip (lowerStr correct_diagnosis)
  if u = c then 1
  else (MEDICAL_SYNONYMS.map (synGroupScore u c)).foldr qMax 0

/-! ## Medical validation (`src/utils/medical_validation.py`)

The knowledge base is the JSON document loaded by `_load_medical_knowledge`;
it is data, so it is a parameter of every operation.  Python dict lookups
`d.get(k, {})` followed by `if not d:` truthiness tests are modelled by
`Option`-valued association-list lookups: `none` corresponds to a missing key
or a key mapped to an empty (falsy) dict, `some r` to a non-empty rule dict
with `r`'s fields obtained via `.get(field, default)`. -/

structure SpecialtyData where
  name : Option Str
  description : Option Str
  common_conditions : Option (List Str)
deriving DecidableEq, Repr

structure SymptomData where
  associated_specialties : List Str
  severity_impact : List Str
deriving DecidableEq, Repr

structure SpecRules where
  required_symptoms : List Str
  optional_symptoms : List Str
  contraindicated_symptoms : List Str
deriving DecidableEq, Repr

structure MinMaxRule where
  minS : Nat
  maxS : Nat
deriving DecidableEq, Repr

structure ContraRule where
  symptoms : List Str
  reason : Str
deriving DecidableEq, Repr

structure AgeRules where
  common_specialties : List Str
  less_common_specialties : List Str
deriving DecidableEq, Repr

structure ValidationRules where
  symptom_specialty_combinations : List (Str × SpecRules)
  contradictory_symptoms : List ContraRule
  age_appropriate_conditions : List (Str × AgeRules)
  minimum_maximum_symptoms : List (Str × MinMaxRule)
  severity_symptom_compatibility : List Str
deriving DecidableEq, Repr

structure KnowledgeBase where
  specialties : List (Str × SpecialtyData)
  symptoms : List (Str × SymptomData)
  validation_rules : ValidationRules
  severity_descriptions : List Str
deriving DecidableEq, Repr

/-- The required-field errors of `validate_specialty` for a present
specialty entry (`name`, `description`, `common_conditions`). -/
def specialtyFieldErrors (specialty : Str) (d : SpecialtyData) : List Str :=
  (if d.name.isNone then
    [lit ("Specialty ") ++ specialty ++ lit (" is missing required field: name")]
  else [])
  ++ (if d.description.isNone then
    [lit ("Specialty ") ++ specialty
       ++ lit (" is missing required field: description")]
  else [])
  ++ (if d.common_conditions.isNone then
    [lit ("Specialty ") ++ specialty
       ++ lit (" is missing required field: common_conditions")]
  else [])

/-- `validate_specialty` of `MedicalValidationSystem`. -/
def validate_specialty (kb : KnowledgeBase) (specialty : Str) : Bool × List Str :=
  if specialty = [] then (false, [lit ("Specialty cannot be empty")])
  else
    match List.lookup specialty kb.specialties with
    | none =>
        (false,
          [lit ("Unknown specialty: ") ++ specialty,
           lit ("Available specialties: ")
             ++ pyJoin (lit (", ")) (kb.specialties.map Prod.fst)])
    | some d =>
        let errors := specialtyFieldErrors specialty d
        if errors ≠ [] then (false, errors) else (true, [])

/-- `validate_symptoms` of `MedicalValidationSystem`. -/
def validate_symptoms (kb : KnowledgeBase) (symptoms : List Str) : Bool × List Str :=
  if symptoms = [] then (false, [lit ("At least one symptom must be provided")])
  else
    let unknown_symptoms :=
      symptoms.filter (fun s => (List.lookup s kb.symptoms).isNone)
    if unknown_symptoms ≠ [] then
      (false,
        [lit ("Unknown symptoms: ") ++ pyJoin (lit (", ")) unknown_symptoms,
         lit ("Available symptoms (first 10): ")
           ++ pyJoin (lit (", ")) ((kb.symptoms.map Prod.fst).take 10) ++ lit ("...")])
    else (true, [])

/-- Appropriateness/contraindication messages of
`validate_symptom_specialty_combination`: first component the errors, second
the warnings (or the no-rules warning when the specialty has no truthy rule
entry). -/
def comboRuleMessages (kb : KnowledgeBase) (specialty : Str) (symptoms : List Str) :
    List Str × List Str :=
  match List.lookup specialty kb.validation_rules.symptom_specialty_combinations with
  | none =>
      ([], [lit ("No specific validation rules found for specialty: ") ++ specialty])
  | some r =>
      let appropriate_symptoms := r.required_symptoms ++ r.optional_symptoms
      let contraindicated_found :=
        symptoms.filter (fun s => s ∈ r.contraindicated_symptoms)
      let errs :=
        if contraindicated_found ≠ [] then
          [lit ("Contraindicated symptoms for ") ++ specialty ++ lit (": ")
             ++ pyJoin (lit (", ")) contraindicated_found]
        else []
      let appropriate_found := symptoms.filter (fun s => s ∈ appropriate_symptoms)
      let w1 :=
        if appropriate_found = [] then
          [lit ("No typical symptoms found for ") ++ specialty
             ++ lit (". Consider symptoms from: ")
             ++ pyJoin (lit (", ")) (appropriate_symptoms.take 5)]
        else []
      let unusual_symptoms :=
        symptoms.filter (fun s =>
          specialty ∉ ((List.lookup s kb.symptoms).map
            SymptomData.associated_specialties).getD [])
      let w2 :=
        if unusual_symptoms ≠ [] then
          [lit ("Unusual symptoms for ") ++ specialty ++ lit (": ")
             ++ pyJoin (lit (", ")) unusual_symptoms]
        else []
      (errs, w1 ++ w2)

/-- Symptom-count bound errors of `validate_symptom_specialty_combination`
(`minimum_maximum_symptoms` rules; defaults `min=1`, `max=10` are folded into
the rule record). -/
def comboCountErrors (kb : KnowledgeBase) (specialty : Str) (symptoms : List Str) :
    List Str :=
  match List.lookup specialty kb.validation_rules.minimum_maximum_symptoms with
  | none => []
  | some mm =>
      if symptoms.length < mm.minS then
        [lit ("Too few symptoms for ") ++ specialty ++ lit (". Minimum: ")
           ++ natStr mm.minS ++ lit (", provided: ") ++ natStr symptoms.length]
      else if symptoms.length > mm.maxS then
        [lit ("Too many symptoms for ") ++ specialty ++ lit (". Maximum: ")
           ++ natStr mm.maxS ++ lit (", provided: ") ++ natStr symptoms.length]
      else []

/-- `validate_symptom_specialty_combination` of `MedicalValidationSystem`
(lines 130-207): returns `(is_valid, errors ++ warnings)`. -/
def validate_symptom_specialty_combination (kb : KnowledgeBase)
    (specialty : Str) (symptoms : List Str) : Bool × List Str :=
  let sv := validate_specialty kb specialty
  let yv := validate_symptoms kb symptoms
  let errors0 := (if sv.1 = true then [] else sv.2) ++ (if yv.1 = true then [] else yv.2)
  if errors0 = [] then
    let errs := (comboRuleMessages kb specialty symptoms).1 ++ comboCountErrors kb specialty symptoms
    (decide (errs = []), errs ++ (comboRuleMessages kb specialty symptoms).2)
  else (false, errors0)

/-- `check_contradictory_symptoms` of `MedicalValidationSystem` (lines
208-232): a rule fires when more than one occurrence of its listed symptoms
appears in the input list. -/
def check_contradictory_symptoms (kb : KnowledgeBase) (symptoms : List Str) :
    Bool × List Str :=
  let contradictions :=
    kb.validation_rules.contradictory_symptoms.filterMap (fun rule =>
      let found_symptoms := symptoms.filter (fun s => s ∈ rule.symptoms)
      if found_symptoms.length > 1 then
        some (rule.reason ++ lit (": ") ++ pyJoin (lit (", ")) found_symptoms)
      else none)
  (decide (contradictions = []), contradictions)

/-- `_get_age_group` of `MedicalValidationSystem`. -/
def ageGroup (age : Int) : Str :=
  if age < 18 then lit ("pediatric")
  else if age < 40 then lit ("young_adult")
  else if age < 65 then lit ("middle_aged")
  else lit ("elderly")

/-- `validate_age_appropriate_conditions` of `MedicalValidationSystem`
(lines 234-273). -/
def validate_age_appropriate_conditions (kb : KnowledgeBase) (specialty : Str)
    (age : Int) (severity : Str) : Bool × List Str :=
  if ¬ (0 ≤ age ∧ age ≤ 120) then
    (false, [lit ("Invalid age: ") ++ intStr age ++ lit (". Must be between 0 and 120.")])
  else
    let g := ageGroup age
    let w1 :=
      match List.lookup g kb.validation_rules.age_appropriate_conditions with
      | none => []
      | some r =>
          if specialty ∈ r.less_common_specialties then
            [specialty ++ lit (" is less common in ") ++ g
               ++ lit (" patients (age ") ++ intStr age ++ lit (")")]
          else if specialty ∉ r.common_specialties ∧ r.common_specialties ≠ [] then
            [specialty ++ lit (" is not typically common in ") ++ g
               ++ lit (" patients (age ") ++ intStr age ++ lit (")")]
          else []
    let w2 :=
      if age < 18 ∧ severity = lit ("severe") then
        [lit ("Severe symptoms in pediatric patients require careful consideration")]
      else if age > 80 ∧ severity = lit ("mild") then
        [lit ("Mild symptoms in elderly patients may mask serious conditions")]
      else []
    (true, w1 ++ w2)

/-- `validate_severity_symptom_compatibility` of `MedicalValidationSystem`
(lines 275-312): warnings only, unless the severity key itself is unknown. -/
def validate_severity_symptom_compatibility (kb : KnowledgeBase)
    (severity : Str) (symptoms : List Str) : Bool × List Str :=
  if severity ∉ kb.severity_descriptions then
    (false,
      [lit ("Invalid severity level: ") ++ severity ++ lit (". Valid options: ")
         ++ pyJoin (lit (", ")) kb.severity_descriptions])
  else
    let warnings :=
      if severity ∈ kb.validation_rules.severity_symptom_compatibility then
        symptoms.filterMap (fun s =>
          let severity_impact :=
            ((List.lookup s kb.symptoms).map SymptomData.severity_impact).getD []
          if severity ∈ severity_impact then none
          else
            some (lit ("Symptom \x27") ++ s
              ++ lit ("\x27 may not be well-defined for ") ++ severity ++ lit (" severity")))
      else []
    (true, warnings)

/-- First recommendation of `_generate_recommendations`: fix the errors. -/
def recErrors (result_errors : List Str) : List Str :=
  if result_errors ≠ [] then
    [lit ("Please address all errors before proceeding with case generation")]
  else []

/-- Second recommendation of `_generate_recommendations`: missing required
symptoms of the specialty. -/
def recMissingRequired (kb : KnowledgeBase) (specialty : Str)
    (symptoms : List Str) : List Str :=
  match List.lookup specialty kb.validation_rules.symptom_specialty_combinations with
  | none => []
  | some r =>
      let missing_required := r.required_symptoms.filter (fun s => s ∉ symptoms)
      if missing_required ≠ [] then
        [lit ("Consider adding typical ") ++ specialty ++ lit (" symptoms: ")
           ++ pyJoin (lit (", ")) (missing_required.take 3)]
      else []

/-- Third recommendation of `_generate_recommendations`: age-specific. -/
def recAge (age : Int) (severity : Str) : List Str :=
  if ageGroup age = lit ("elderly") ∧ severity = lit ("mild") then
    [lit ("Consider that elderly patients may present with atypical symptoms")]
  else if ageGroup age = lit ("pediatric") then
    [lit ("Ensure symptoms are age-appropriate for pediatric presentation")]
  else []

/-- Fourth recommendation of `_generate_recommendations`: severity. -/
def recSeverity (severity : Str) (symptoms : List Str) : List Str :=
  if severity = lit ("severe") ∧ symptoms.length < 3 then
    [lit ("Severe cases typically present with multiple symptoms")]
  else []

/-- `_generate_recommendations` of `MedicalValidationSystem` (lines 408-449);
only the `errors` entry of the partial validation result is consulted. -/
def generate_recommendations (kb : KnowledgeBase) (specialty : Str)
    (symptoms : List Str) (age : Int) (severity : Str)
    (result_errors : List Str) : List Str :=
  recErrors result_errors ++ recMissingRequired kb specialty symptoms
    ++ recAge age severity ++ recSeverity severity symptoms

/-- Result of `comprehensive_validation` (the `timestamp` entry of the Python
dict, a wall-clock string, is not modelled). -/
structure ValidationResult where
  is_valid : Bool
  errors : List Str
  warnings : List Str
  recommendations : List Str
deriving DecidableEq, Repr

/-- Keywords used by `comprehensive_validation` to classify the combined
message list of `validate_symptom_specialty_combination` into errors. -/
def KEYWORD_ERRORS : List Str :=
  [lit ("contraindicated"), lit ("too few"), lit ("too many")]

/-- A message is routed to `errors` when its lowercase form contains one of
the keywords. -/
def msgIsError (m : Str) : Bool :=
  KEYWORD_ERRORS.any (fun k => substrB k (lowerStr m))

/-- Error list accumulated by `comprehensive_validation`, in source order:
basic specialty/symptom errors, keyword-classified combination messages (only
when both basic checks passed), contradictions (only when the symptoms check
passed), age errors, severity errors. -/
def compErrors (kb : KnowledgeBase) (specialty : Str) (symptoms : List Str)
    (age : Int) (severity : Str) : List Str :=
  let b := validate_specialty kb specialty
  let s := validate_symptoms kb symptoms
  let e1 := (if b.1 = true then [] else b.2) ++ (if s.1 = true then [] else s.2)
  let combo := validate_symptom_specialty_combination kb specialty symptoms
  let e2 := if b.1 && s.1 then combo.2.filter msgIsError else []
  let ct := check_contradictory_symptoms kb symptoms
  let e3 := if s.1 then (if ct.1 = true then [] else ct.2) else []
  let a := validate_age_appropriate_conditions kb specialty age severity
  let e4 := if a.1 = true then [] else a.2
  let sv := validate_severity_symptom_compatibility kb severity symptoms
  let e5 := if sv.1 = true then [] else sv.2
  e1 ++ e2 ++ e3 ++ e4 ++ e5

/-- Warning list accumulated by `comprehensive_validation`. -/
def compWarnings (kb : KnowledgeBase) (specialty : Str) (symptoms : List Str)
    (age : Int) (severity : Str) : List Str :=
  let b := validate_specialty kb specialty
  let s := validate_symptoms kb symptoms
  let combo := validate_symptom_specialty_combination kb specialty symptoms
  let w2 := if b.1 && s.1 then combo.2.filter (fun m => !(msgIsError m)) else []
  let a := validate_age_appropriate_conditions kb specialty age severity
  let w4 := if a.1 = true then a.2 else []
  let sv := validate_severity_symptom_compatibility kb severity symptoms
  let w5 := if sv.1 = true then sv.2 else []
  w2 ++ w4 ++ w5

/-- Validity flag of `comprehensive_validation`: the conjunction of every
check's flag, the gated checks counting as passed when skipped. -/
def compIsValid (kb : KnowledgeBase) (specialty : Str) (symptoms : List Str)
    (age : Int) (severity : Str) : Bool :=
  let b := validate_specialty kb specialty
  let s := validate_symptoms kb symptoms
  let combo := validate_symptom_specialty_combination kb specialty symptoms
  let v2 := if b.1 && s.1 then combo.1 else true
  let ct := check_contradictory_symptoms kb symptoms
  let v3 := if s.1 then ct.1 else true
  let a := validate_age_appropriate_conditions kb specialty age severity
  let sv := validate_severity_symptom_compatibility kb severity symptoms
  b.1 && s.1 && v2 && v3 && a.1 && sv.1

/-- `comprehensive_validation` of `MedicalValidationSystem` (lines 330-406).
The `gender` argument is accepted and ignored, exactly as in the source. -/
def comprehensive_validation (kb : KnowledgeBase) (specialty : Str)
    (symptoms : List Str) (age : Int) (gender : Str) (severity : Str) :
    ValidationResult :=
  ValidationResult.mk (compIsValid kb specialty symptoms age severity)
    (compErrors kb specialty symptoms age severity)
    (compWarnings kb specialty symptoms age severity)
    (generate_recommendations kb specialty symptoms age severity
      (compErrors kb specialty symptoms age severity))

/-! ## AI case generation (`src/utils/ai_case_generator.py`)

`generate_patient_case` with the comprehensive validator available (the
module-level `medical_validator`), which is the path exercised whenever the
knowledge base loads; the legacy fallback only runs when the validator is
missing or raises, which the pure embedding excludes.  The external pieces —
the `GROQ_API_KEY` environment variable, `Groq` client construction, the chat
completion call and CPython's `json.loads` — are gathered into a `GenEnv`
record, universally quantified in every theorem about the pipeline.  JSON
values are the inductive `JValue`. -/

inductive JValue where
  | jstr (s : Str)
  | jnum (n : Int)
  | jbool (b : Bool)
  | jnull
  | jlist (xs : List JValue)
  | jdict (kvs : List (Str × JValue))

/-- Python truthiness of a JSON value. -/
def jTruthy : JValue → Bool
  | .jstr s => !s.isEmpty
  | .jnum n => decide (n ≠ 0)
  | .jbool b => b
  | .jnull => false
  | .jlist xs => !xs.isEmpty
  | .jdict kvs => !kvs.isEmpty

/-- Python `len(v)`: defined for strings, lists and dicts, a `TypeError`
(`none`) otherwise. -/
def jLen : JValue → Option Nat
  | .jstr s => some s.length
  | .jlist xs => some xs.length
  | .jdict kvs => some kvs.length
  | _ => none

/-- Python `d.get(k)` on a JSON object. -/
def jGet (d : List (Str × JValue)) (k : Str) : Option JValue := List.lookup k d

/-- Python `v == "s"` for a JSON value against a string literal. -/
def jIsStr (v : JValue) (s : Str) : Bool :=
  match v with
  | .jstr t => t == s
  | _ => false

/-- Python `isinstance(v, list) and len(v) >= n`. -/
def jIsListLen (v : JValue) (n : Nat) : Bool :=
  match v with
  | .jlist xs => n ≤ xs.length
  | _ => false

/-- `required_fields` of `validate_ai_response`. -/
def REQUIRED_FIELDS : List Str :=
  [lit ("diagnosis"), lit ("additional_symptoms"), lit ("medical_history"),
   lit ("recent_exposure"), lit ("patient_presentation"), lit ("clinical_notes"),
   lit ("difficulty_level"), lit ("learning_objectives"), lit ("differential_diagnoses")]

/-- The content-length checks of `validate_ai_response`: `len` on a field that
has no length raises `TypeError` (modelled as `Except.error ()`), which
`generate_patient_case`'s outermost handler converts to an unexpected-error
result. -/
def lenCheck (d : List (Str × JValue)) (field : Str) (minLen : Nat) (msg : Str) :
    Except Unit (List Str) :=
  match jGet d field with
  | none => Except.ok []
  | some v =>
      match jLen v with
      | none => Except.error ()
      | some n => Except.ok (if n < minLen then [msg] else [])

/-- `validate_ai_response` of `src/utils/ai_case_generator.py` (lines
498-543): returns `(is_valid, errors)` in source order, or a `TypeError`. -/
def validate_ai_response (response_data : List (Str × JValue)) :
    Except Unit (Bool × List Str) :=
  let e1 := REQUIRED_FIELDS.filterMap (fun field =>
    match jGet response_data field with
    | none => some (lit ("Missing required field: ") ++ field)
    | some v => if jTruthy v then none else some (lit ("Empty field: ") ++ field))
  let e2 :=
    match jGet response_data (lit ("difficulty_level")) with
    | none => []
    | some v =>
        if jIsStr v (lit ("beginner")) || jIsStr v (lit ("intermediate"))
            || jIsStr v (lit ("advanced")) then []
        else
          [lit ("Invalid difficulty_level. Must be one of: [\x27beginner\x27, \x27intermediate\x27, \x27advanced\x27]")]
  let e3 :=
    match jGet response_data (lit ("learning_objectives")) with
    | none => []
    | some v =>
        if jIsListLen v 1 then []
        else [lit ("learning_objectives must be a list with at least one item")]
  let e4 :=
    match jGet response_data (lit ("differential_diagnoses")) with
    | none => []
    | some v =>
        if jIsListLen v 2 then []
        else [lit ("differential_diagnoses must be a list with at least two items")]
  match lenCheck response_data (lit ("diagnosis")) 3 (lit ("diagnosis is too short")),
      lenCheck response_data (lit ("patient_presentation")) 20
        (lit ("patient_presentation is too short - should be a detailed description")) with
  | Except.error u, _ => Except.error u
  | Except.ok _, Except.error u => Except.error u
  | Except.ok e5, Except.ok e6 =>
      let errors := e1 ++ e2 ++ e3 ++ e4 ++ e5 ++ e6
      Except.ok (decide (errors = []), errors)

/-- The `prompt_template` literal embedded in the success payload of
`generate_patient_case`. -/
def PROMPT_TEMPLATE : Str :=
  lit ("You are a virtual patient in a clinical simulation. You have been assigned the following profile (for your reference only – you must never reveal the diagnosis itself, only describe symptoms):\n\n  • Age: {age}  \n  • Gender: {gender}  \n  • Occupation: {occupation}  \n  • Relevant medical history: {medical_history}  \n  • Underlying illness (secret – do not mention this word or any synonyms): {illness}  \n  • Any recent events or exposures: {recent_exposure}  \n\nYour task:\nWhen the \"Doctor\" (the next speaker) asks you questions, respond as a real patient would – describe what hurts, how you feel, when symptoms started, how they\x27ve changed, etc. Under no circumstances mention or hint at the diagnosis name.  \nKeep answers concise, natural, and include details like pain quality, timing, triggers, and any self-care you\x27ve tried.\n\nAdditional symptoms you should exhibit: {additional_symptoms}\nHow you should present: {patient_presentation}")

/-- The `demographics` dict passed to `generate_patient_case`; `none` models
a missing key. -/
structure Demographics where
  age : Option Int
  gender : Option Str
  occupation : Option Str
  medical_history : Option Str

/-- External environment of a `generate_patient_case` call: the `GROQ_API_KEY`
variable, the `Groq(...)` constructor outcome, the chat-completion outcome
(exception or response text) and CPython `json.loads` on the extracted
substring.  The prompt string built by `generate_case_generation_prompt` is
pure string formatting whose value influences the result only through the
collaborator's response, which is arbitrary here, so it is not modelled. -/
structure GenEnv where
  apiKey : Option Str
  clientInit : Except Str Unit
  aiResponse : Except Str Str
  jsonLoads : Str → Except Str JValue

/-- `patient_details` record of the success payload. -/
structure PatientDetails where
  age : Str
  gender : Str
  occupation : Str
  medical_history : JValue
  illness : JValue
  recent_exposure : JValue
  additional_symptoms : JValue
  patient_presentation : JValue

/-- `generation_metadata` record of the success payload. -/
structure GenerationMetadata where
  specialty : Str
  input_symptoms : List Str
  severity : Str
  difficulty_level : JValue
  learning_objectives : JValue
  differential_diagnoses : JValue
  clinical_notes : JValue
  generation_warnings : List Str

/-- `patient_data` record of the success payload. -/
structure PatientData where
  type : Str
  prompt_template : Str
  patient_details : PatientDetails
  generation_metadata : GenerationMetadata
  voice_id : Str

/-- `case_summary` record of the success payload. -/
structure CaseSummary where
  diagnosis : JValue
  difficulty : JValue
  learning_objectives : JValue

/-- Result dict of `generate_patient_case`; `none` models keys absent from
the particular return site. -/
structure GenResult where
  status : Str
  message : Option Str
  validation_errors : Option (List Str)
  warnings : Option (List Str)
  raw_response : Option Str
  case_data : Option JValue
  patient_data : Option PatientData
  case_summary : Option CaseSummary

/-- An error return carrying only `status` and `message`. -/
def simpleError (m : Str) : GenResult :=
  { status := lit ("error"), message := some m, validation_errors := none,
    warnings := none, raw_response := none, case_data := none,
    patient_data := none, case_summary := none }

/-- A parse-failure return: `status`, `message` and `raw_response`. -/
def parseError (m raw : Str) : GenResult :=
  { simpleError m with raw_response := some raw }

/-- JSON-substring extraction of `generate_patient_case`: the slice between
the first `\x7b` and the last `\x7d` (inclusive), `none` when either brace is
missing. -/
def extractJson (resp : Str) : Option Str :=
  match resp.findIdx? (fun c => c == '{'),
      (resp.reverse.findIdx? (fun c => c == '}')).map (fun i => resp.length - i) with
  | some js, some je => some ((resp.drop js).take (je - js))
  | _, _ => none

/-- Python `type(v).__name__` for the non-dict JSON values. -/
def jTypeName : JValue → Str
  | .jstr _ => lit ("str")
  | .jnum _ => lit ("int")
  | .jbool _ => lit ("bool")
  | .jnull => lit ("NoneType")
  | .jlist _ => lit ("list")
  | .jdict _ => lit ("dict")

/-- Success-payload assembly of `generate_patient_case` (the
`patient_data` / `case_summary` build after `validate_ai_response` passes). -/
def assembleSuccess (kvs : List (Str × JValue)) (warnings : List Str)
    (demographics : Demographics) (specialty : Str) (symptoms : List Str)
    (severity : Str) : GenResult :=
  let details : PatientDetails :=
    { age := match demographics.age with
        | some n => intStr n
        | none => lit ("Unknown")
      gender := demographics.gender.getD (lit ("Unknown"))
      occupation := demographics.occupation.getD (lit ("Unknown"))
      medical_history := (jGet kvs (lit ("medical_history"))).getD
        (JValue.jstr (lit ("No significant medical history")))
      illness := (jGet kvs (lit ("diagnosis"))).getD
        (JValue.jstr (lit ("Unknown condition")))
      recent_exposure := (jGet kvs (lit ("recent_exposure"))).getD
        (JValue.jstr (lit ("None reported")))
      additional_symptoms := (jGet kvs (lit ("additional_symptoms"))).getD
        (JValue.jstr (lit ("See presenting symptoms")))
      patient_presentation := (jGet kvs (lit ("patient_presentation"))).getD
        (JValue.jstr (lit ("Patient presents with symptoms as described"))) }
  let metadata : GenerationMetadata :=
    { specialty := specialty
      input_symptoms := symptoms
      severity := severity
      difficulty_level := (jGet kvs (lit ("difficulty_level"))).getD
        (JValue.jstr (lit ("intermediate")))
      learning_objectives := (jGet kvs (lit ("learning_objectives"))).getD
        (JValue.jlist [])
      differential_diagnoses := (jGet kvs (lit ("differential_diagnoses"))).getD
        (JValue.jlist [])
      clinical_notes := (jGet kvs (lit ("clinical_notes"))).getD
        (JValue.jstr [])
      generation_warnings := warnings }
  { status := lit ("success")
    message := none
    validation_errors := none
    warnings := some warnings
    raw_response := none
    case_data := none
    patient_data := some
      { type := lit ("ai_generated")
        prompt_template := PROMPT_TEMPLATE
        patient_details := details
        generation_metadata := metadata
        voice_id := lit ("Fritz-PlayAI") }
    case_summary := some
      { diagnosis := (jGet kvs (lit ("diagnosis"))).getD
          (JValue.jstr (lit ("Unknown")))
        difficulty := (jGet kvs (lit ("difficulty_level"))).getD
          (JValue.jstr (lit ("intermediate")))
        learning_objectives := (jGet kvs (lit ("learning_objectives"))).getD
          (JValue.jlist []) } }

/-- `generate_patient_case` of `src/utils/ai_case_generator.py` (lines
545-790), with the comprehensive validator available. -/
def generate_patient_case (kb : KnowledgeBase) (env : GenEnv) (specialty : Str)
    (symptoms : List Str) (demographics : Demographics) (severity : Str) :
    GenResult :=
  let vr := comprehensive_validation kb specialty symptoms
    (demographics.age.getD 0) (demographics.gender.getD []) severity
  if vr.is_valid then
    match env.apiKey with
    | none => simpleError (lit ("GROQ_API_KEY environment variable not set"))
    | some _ =>
      match env.clientInit with
      | Except.error e =>
          simpleError (lit ("Failed to initialize AI client: ") ++ e)
      | Except.ok _ =>
        match env.aiResponse with
        | Except.error e =>
            simpleError (lit ("Failed to generate case with AI: ") ++ e)
        | Except.ok ai_response =>
          match extractJson ai_response with
          | none =>
              parseError
                (lit ("Failed to parse AI response: No JSON object found in AI response"))
                ai_response
          | some json_text =>
            match env.jsonLoads json_text with
            | Except.error pe =>
                parseError (lit ("Failed to parse AI response: ") ++ pe) ai_response
            | Except.ok (JValue.jdict kvs) =>
              match validate_ai_response kvs with
              | Except.error _ =>
                  simpleError
                    (lit ("Unexpected error in generate_patient_case: object has no len()"))
              | Except.ok vres =>
                if vres.1 then
                  assembleSuccess kvs vr.warnings demographics specialty symptoms severity
                else
                  { simpleError (lit ("Generated case failed validation: ")
                      ++ pyJoin (lit (", ")) vres.2) with
                    case_data := some (JValue.jdict kvs) }
            | Except.ok v =>
                { simpleError (lit ("AI returned invalid data type: expected dict, got ")
                    ++ jTypeName v) with raw_response := some ai_response }
  else
    { status := lit ("error")
      message := some (lit ("Validation failed: ") ++ pyJoin (lit (", ")) vr.errors)
      validation_errors := some vr.errors
      warnings := some vr.warnings
      raw_response := none
      case_data := none
      patient_data := none
      case_summary := none }

/-! ## Concrete sample data

Small knowledge bases in the schema of §6 of the spec (the JSON document the
validator loads is external data, so concrete instances are supplied here for
the closed theorems), a parsed AI case, and collaborator environments. -/

/-- A small well-formed knowledge base: cardiology/neurology/dermatology with
the usual symptom table. -/
def kbA : KnowledgeBase :=
  { specialties :=
      [ (lit ("cardiology"),
          { name := some (lit ("Cardiology"))
            description := some (lit ("Heart and cardiovascular system disorders"))
            common_conditions := some [lit ("Myocardial infarction"), lit ("Angina")] }),
        (lit ("neurology"),
          { name := some (lit ("Neurology"))
            description := some (lit ("Brain and nervous system disorders"))
            common_conditions := some [lit ("Stroke"), lit ("Migraine")] }),
        (lit ("dermatology"),
          { name := some (lit ("Dermatology"))
            description := some (lit ("Skin conditions"))
            common_conditions := some [lit ("Eczema"), lit ("Psoriasis")] }) ]
    symptoms :=
      [ (lit ("chest_pain"),
          { associated_specialties := [lit ("cardiology"), lit ("emergency")]
            severity_impact := [lit ("mild"), lit ("moderate"), lit ("severe")] }),
        (lit ("shortness_breath"),
          { associated_specialties := [lit ("cardiology"), lit ("respiratory")]
            severity_impact := [lit ("mild"), lit ("moderate"), lit ("severe")] }),
        (lit ("headache"),
          { associated_specialties := [lit ("neurology")]
            severity_impact := [lit ("mild"), lit ("moderate"), lit ("severe")] }),
        (lit ("rash"),
          { associated_specialties := [lit ("dermatology")]
            severity_impact := [lit ("mild"), lit ("moderate")] }),
        (lit ("constipation"),
          { associated_specialties := [lit ("gastroenterology")]
            severity_impact := [] }),
        (lit ("diarrhea"),
          { associated_specialties := [lit ("gastroenterology")]
            severity_impact := [] }) ]
    validation_rules :=
      { symptom_specialty_combinations :=
          [ (lit ("cardiology"),
              { required_symptoms := [lit ("chest_pain")]
                optional_symptoms := [lit ("shortness_breath")]
                contraindicated_symptoms := [lit ("rash")] }),
            (lit ("neurology"),
              { required_symptoms := [lit ("headache")]
                optional_symptoms := []
                contraindicated_symptoms := [] }) ]
        contradictory_symptoms :=
          [ { symptoms := [lit ("constipation"), lit ("diarrhea")]
              reason := lit ("Constipation and diarrhea rarely occur simultaneously") } ]
        age_appropriate_conditions :=
          [ (lit ("pediatric"),
              { common_specialties := []
                less_common_specialties := [lit ("cardiology")] }) ]
        minimum_maximum_symptoms := [ (lit ("cardiology"), { minS := 1, maxS := 5 }) ]
        severity_symptom_compatibility := [] }
    severity_descriptions := [lit ("mild"), lit ("moderate"), lit ("severe")] }

/-- A knowledge base whose symptom table contains a key embedding the phrase
`too many`; such a key is perfectly legal input data for the loader. -/
def kbTooMany : KnowledgeBase :=
  { specialties :=
      [ (lit ("neurology"),
          { name := some (lit ("Neurology"))
            description := some (lit ("Brain and nervous system disorders"))
            common_conditions := some [lit ("Stroke"), lit ("Migraine")] }) ]
    symptoms :=
      [ (lit ("headache"),
          { associated_specialties := [lit ("neurology")]
            severity_impact := [] }),
        (lit ("too many headaches"),
          { associated_specialties := []
            severity_impact := [] }) ]
    validation_rules :=
      { symptom_specialty_combinations :=
          [ (lit ("neurology"),
              { required_symptoms := [lit ("headache")]
                optional_symptoms := []
                contraindicated_symptoms := [] }) ]
        contradictory_symptoms := []
        age_appropriate_conditions := []
        minimum_maximum_symptoms := []
        severity_symptom_compatibility := [] }
    severity_descriptions := [lit ("mild"), lit ("moderate"), lit ("severe")] }

/-- A well-formed parsed AI case, as `json.loads` would deliver it. -/
def sampleCase : List (Str × JValue) :=
  [ (lit ("diagnosis"), JValue.jstr (lit ("Myocardial infarction"))),
    (lit ("additional_symptoms"), JValue.jstr (lit ("Sweating, nausea"))),
    (lit ("medical_history"), JValue.jstr (lit ("Hypertension for 10 years"))),
    (lit ("recent_exposure"), JValue.jstr (lit ("None"))),
    (lit ("patient_presentation"),
      JValue.jstr (lit ("Crushing substernal chest pain radiating to the left arm"))),
    (lit ("clinical_notes"), JValue.jstr (lit ("ECG shows ST elevation"))),
    (lit ("difficulty_level"), JValue.jstr (lit ("intermediate"))),
    (lit ("learning_objectives"),
      JValue.jlist [JValue.jstr (lit ("Recognize ACS presentation"))]),
    (lit ("differential_diagnoses"),
      JValue.jlist [JValue.jstr (lit ("Angina")), JValue.jstr (lit ("Pericarditis"))]) ]

/-- A collaborator environment that answers with a JSON object. -/
def envOk : GenEnv :=
  { apiKey := some (lit ("k"))
    clientInit := Except.ok ()
    aiResponse := Except.ok (lit ("{x}"))
    jsonLoads := fun _ => Except.ok (JValue.jdict sampleCase) }

/-- A collaborator environment in which everything external fails. -/
def envDown : GenEnv :=
  { apiKey := none
    clientInit := Except.error (lit ("boom"))
    aiResponse := Except.error (lit ("connection reset"))
    jsonLoads := fun _ => Except.error (lit ("Expecting value: line 1 column 1 (char 0)")) }

/-- Demographics of the typical valid request of §8 of the spec. -/
def demo55 : Demographics :=
  { age := some 55
    gender := some (lit ("male"))
    occupation := some (lit ("teacher"))
    medical_history := some (lit ("None")) }

/-! ## Helper lemmas -/

theorem lowerStr_append (a b : Str) : lowerStr (a ++ b) = lowerStr a ++ lowerStr b :=
  List.map_append _ a b

theorem infix_of_prefixed {k p : Str} (rest : Str) (h : k <+: p) :
    k <:+: p ++ rest := by
  rcases h with ⟨t, rfl⟩
  exact ⟨[], t ++ rest, by simp⟩

theorem msgIsError_of_infix {k m : Str} (hk : k ∈ KEYWORD_ERRORS)
    (h : k <:+: lowerStr m) : msgIsError m = true := by
  unfold msgIsError
  rw [List.any_eq_true]
  exact ⟨k, hk, decide_eq_true h⟩

theorem msgIsError_contra (x : Str) :
    msgIsError (lit ("Contraindicated symptoms for ") ++ x) = true := by
  refine msgIsError_of_infix (k := lit ("contraindicated")) (by decide) ?_
  rw [lowerStr_append,
    show lowerStr (lit ("Contraindicated symptoms for "))
      = lit ("contraindicated symptoms for ") from by decide]
  exact infix_of_prefixed _ (by decide)

theorem msgIsError_toofew (x : Str) :
    msgIsError (lit ("Too few symptoms for ") ++ x) = true := by
  refine msgIsError_of_infix (k := lit ("too few")) (by decide) ?_
  rw [lowerStr_append,
    show lowerStr (lit ("Too few symptoms for "))
      = lit ("too few symptoms for ") from by decide]
  exact infix_of_prefixed _ (by decide)

theorem msgIsError_toomany (x : Str) :
    msgIsError (lit ("Too many symptoms for ") ++ x) = true := by
  refine msgIsError_of_infix (k := lit ("too many")) (by decide) ?_
  rw [lowerStr_append,
    show lowerStr (lit ("Too many symptoms for "))
      = lit ("too many symptoms for ") from by decide]
  exact infix_of_prefixed _ (by decide)

theorem qMax_eq (a b : ℚ) : qMax a b = max a b := by
  unfold qMax
  split
  · next h => exact (max_eq_right h).symm
  · next h => exact (max_eq_left (le_of_not_le h)).symm

theorem qAdd_eq (a b : ℚ) : qAdd a b = a + b := by
  unfold qAdd
  rw [Rat.mkRat_eq_divInt]
  conv_rhs => rw [← Rat.num_divInt_den a, ← Rat.num_divInt_den b]
  rw [Rat.divInt_add_divInt _ _
    (by exact_mod_cast a.den_nz : ((a.den : Int)) ≠ 0)
    (by exact_mod_cast b.den_nz : ((b.den : Int)) ≠ 0)]
  congr 1

theorem qMul_eq (a b : ℚ) : qMul a b = a * b := by
  unfold qMul
  rw [Rat.mkRat_eq_divInt]
  conv_rhs => rw [← Rat.num_divInt_den a, ← Rat.num_divInt_den b]
  rw [Rat.divInt_mul_divInt']
  congr 1

/-- The combined-score expression of `evaluate_diagnosis`, rewritten with the
ordinary rational operations. -/
theorem combinedEq (s k y : ℚ) :
    qMax (qMax (qAdd (qAdd (qMul s (mkRat 2 5)) (qMul k (mkRat 3 10)))
          (qMul y (mkRat 3 10))) s) y
      = max (max (s * (2 / 5) + k * (3 / 10) + y * (3 / 10)) s) y := by
  rw [qMax_eq, qMax_eq, qAdd_eq, qAdd_eq, qMul_eq, qMul_eq, qMul_eq]
  norm_num [Rat.mkRat_eq_div]

theorem foldr_qMax_nonneg (l : List ℚ) : 0 ≤ l.foldr qMax 0 := by
  induction l with
  | nil => simp
  | cons x xs ih =>
    simp only [List.foldr_cons, qMax_eq]
    exact le_trans ih (le_max_right x _)

/-- One step of `calculate_synonym_similarity`'s fold equals taking the
maximum with the group's `synGroupScore`, provided the accumulator is
non-negative (it always is: it starts at 0 and only grows). -/
theorem synFold (u c : Str) (l : List (Str × List Str)) :
    ∀ acc : ℚ, 0 ≤ acc →
      l.foldl
        (fun max_similarity g =>
          let all_terms := g.1 :: g.2
          let user_match := all_terms.any (fun t => substrB t u)
          let correct_match := all_terms.any (fun t => substrB t c)
          if user_match && correct_match then qMax max_similarity (mkRat 9 10)
          else if user_match || correct_match then
            if substrB g.1 u || substrB g.1 c then qMax max_similarity (mkRat 7 10)
            else max_similarity
          else max_similarity)
        acc
      = qMax acc ((l.map (synGroupScore u c)).foldr qMax 0) := by
  induction l with
  | nil =>
    intro acc h
    simp [qMax_eq, max_eq_left h]
  | cons g gs ih =>
    intro acc h
    simp only [List.foldl_cons, List.map_cons, List.foldr_cons]
    have hstep :
        (let all_terms := g.1 :: g.2
         let user_match := all_terms.any (fun t => substrB t u)
         let correct_match := all_terms.any (fun t => substrB t c)
         if user_match && correct_match then qMax acc (mkRat 9 10)
         else if user_match || correct_match then
           if substrB g.1 u || substrB g.1 c then qMax acc (mkRat 7 10)
           else acc
         else acc)
        = qMax acc (synGroupScore u c g) := by
      unfold synGroupScore
      simp only
      cases hu : (g.1 :: g.2).any (fun t => substrB t u)
        <;> cases hc : (g.1 :: g.2).any (fun t => substrB t c)
        <;> cases hs : (substrB g.1 u || substrB g.1 c)
        <;> simp [qMax_eq, max_eq_left h]
    simp only at hstep ⊢
    rw [hstep, ih (qMax acc (synGroupScore u c g))
        (by rw [qMax_eq]; exact le_trans h (le_max_left _ _))]
    simp only [qMax_eq]
    rw [max_assoc]

/-! ## Claims -/

/-- Claim C2, counterexample: `evaluate_diagnosis("the flu", "appendicitis")`
does NOT return `is_close = false` as the claim states — the code classifies
the pair as close (the `appendicitis` synonym group contributes 0.7 because
its canonical name occurs in the correct string). -/
theorem c2_counterexample :
    (evaluate_diagnosis (lit ("the flu")) (lit ("appendicitis"))).is_close = true := by
  decide

/-- Claim C2, amended: `evaluate_diagnosis("the flu", "appendicitis")` returns
a combined `similarity_score` of exactly 0.7 with `is_correct = false` and
`is_close = true`; the sequence similarity is `2/19`, the keyword similarity
0 and the synonym similarity 0.7. -/
theorem c2_amended :
    evaluate_diagnosis (lit ("the flu")) (lit ("appendicitis")) =
      { is_correct := false
        is_close := true
        similarity_score := mkRat 7 10
        feedback := lit ("You\x27re thinking in the right direction. The condition is related to what you\x27ve identified.")
        sequence_similarity := mkRat 2 19
        keyword_similarity := 0
        synonym_similarity := mkRat 7 10 } := by
  decide

/-- Claim C3, counterexample: at `("heart attack", "zzz")` exactly one side
contains a term of the `heart attack` group and the canonical name does not
appear in the other side, so the claimed rule yields 0, but
`calculate_synonym_similarity` returns 0.7: the code awards 0.7 when the
canonical name appears in the *matching* side, not the other side. -/
theorem c3_counterexample :
    calculate_synonym_similarity (lit ("heart attack")) (lit ("zzz")) = mkRat 7 10
    ∧ synonymSimilaritySpec (lit ("heart attack")) (lit ("zzz")) = 0 := by
  constructor
  · decide
  · decide

/-- Claim C3, amended: for every pair of strings,
`calculate_synonym_similarity` equals: 1.0 when the lowercased, stripped
strings are equal; otherwise the maximum over the synonym groups of a
contribution that is 0.9 when both sides contain a term of the group, 0.7
when at least one side contains a term and the canonical group name occurs in
the user or the correct string (when exactly one side matches this makes the
0.7 condition "the canonical name appears in the matching side"), and 0
otherwise. -/
theorem c3_amended (user_diagnosis correct_diagnosis : Str) :
    calculate_synonym_similarity user_diagnosis correct_diagnosis
      = synonymSimilarityAmended user_diagnosis correct_diagnosis := by
  unfold calculate_synonym_similarity synonymSimilarityAmended
  simp only
  by_cases h : pyStrip (lowerStr user_diagnosis) = pyStrip (lowerStr correct_diagnosis)
  · rw [if_pos h, if_pos h]
  · rw [if_neg h, if_neg h,
      synFold (pyStrip (lowerStr user_diagnosis)) (pyStrip (lowerStr correct_diagnosis))
        MEDICAL_SYNONYMS 0 le_rfl,
      qMax_eq, max_eq_right (foldr_qMax_nonneg _)]

/-- Claim C6: for every pair of diagnosis strings the combined
`similarity_score` of `evaluate_diagnosis` equals
`max(0.4·sequence + 0.3·keyword + 0.3·synonym, sequence, synonym)`, and is in
particular at least the sequence similarity and at least the synonym
similarity. -/
theorem c6_combined_score (user_diagnosis correct_diagnosis : Str) :
    (evaluate_diagnosis user_diagnosis correct_diagnosis).similarity_score
      = max (max ((evaluate_diagnosis user_diagnosis correct_diagnosis).sequence_similarity * (2 / 5)
            + (evaluate_diagnosis user_diagnosis correct_diagnosis).keyword_similarity * (3 / 10)
            + (evaluate_diagnosis user_diagnosis correct_diagnosis).synonym_similarity * (3 / 10))
          (evaluate_diagnosis user_diagnosis correct_diagnosis).sequence_similarity)
        (evaluate_diagnosis user_diagnosis correct_diagnosis).synonym_similarity
    ∧ (evaluate_diagnosis user_diagnosis correct_diagnosis).sequence_similarity
        ≤ (evaluate_diagnosis user_diagnosis correct_diagnosis).similarity_score
    ∧ (evaluate_diagnosis user_diagnosis correct_diagnosis).synonym_similarity
        ≤ (evaluate_diagnosis user_diagnosis correct_diagnosis).similarity_score := by
  have h1 :
      (evaluate_diagnosis user_diagnosis correct_diagnosis).similarity_score
        = max (max ((evaluate_diagnosis user_diagnosis correct_diagnosis).sequence_similarity * (2 / 5)
              + (evaluate_diagnosis user_diagnosis correct_diagnosis).keyword_similarity * (3 / 10)
              + (evaluate_diagnosis user_diagnosis correct_diagnosis).synonym_similarity * (3 / 10))
            (evaluate_diagnosis user_diagnosis correct_diagnosis).sequence_similarity)
          (evaluate_diagnosis user_diagnosis correct_diagnosis).synonym_similarity :=
    combinedEq _ _ _
  refine ⟨h1, ?_, ?_⟩
  · rw [h1]
    exact le_trans (le_max_right _ _) (le_max_left _ _)
  · rw [h1]
    exact le_max_right _ _

theorem recErrors_len (es : List Str) : (recErrors es).length ≤ 1 := by
  unfold recErrors
  split <;> simp

theorem recMissingRequired_len (kb : KnowledgeBase) (sp : Str) (sy : List Str) :
    (recMissingRequired kb sp sy).length ≤ 1 := by
  unfold recMissingRequired
  split
  · simp
  · dsimp only
    split <;> simp

theorem recAge_len (age : Int) (sev : Str) : (recAge age sev).length ≤ 1 := by
  unfold recAge
  split
  · simp
  · split <;> simp

theorem recSeverity_len (sev : Str) (sy : List Str) : (recSeverity sev sy).length ≤ 1 := by
  unfold recSeverity
  split <;> simp

/-- Claim C8, counterexample: a contraindicated symptom with a pediatric age,
severe severity and a missing required symptom makes `_generate_recommendations`
emit 4 recommendations, not at most 3. -/
theorem c8_counterexample :
    (comprehensive_validation kbA (lit ("cardiology")) [lit ("rash")] 10
      (lit ("f")) (lit ("severe"))).recommendations.length = 4 := by
  decide

/-- Claim C8, amended: for every input and knowledge base the recommendations
list of `comprehensive_validation` contains at most 4 entries (the four
independent sources each contribute at most one). -/
theorem c8_amended (kb : KnowledgeBase) (specialty : Str) (symptoms : List Str)
    (age : Int) (gender severity : Str) :
    (comprehensive_validation kb specialty symptoms age gender severity).recommendations.length ≤ 4 := by
  have h1 := recErrors_len (compErrors kb specialty symptoms age severity)
  have h2 := recMissingRequired_len kb specialty symptoms
  have h3 := recAge_len age severity
  have h4 := recSeverity_len severity symptoms
  simp only [comprehensive_validation, generate_recommendations, List.length_append]
  omega

/-- Claim C7: for a contradiction rule listing exactly the two distinct
symptoms `a` and `b`, a duplicate-free symptom list containing both always
yields `is_valid = false` with an error mentioning the rule's reason, and a
list in which no contradiction rule collects more than one occurrence (in
particular one containing at most one of `a`,`b` and triggering no other
rule) yields `(true, [])`. -/
theorem c7_contradiction_rule (kb : KnowledgeBase) (symptoms : List Str)
    (a b reason : Str)
    (hrule : ContraRule.mk [a, b] reason ∈ kb.validation_rules.contradictory_symptoms)
    (hab : a ≠ b) (hnodup : symptoms.Nodup) :
    ((a ∈ symptoms ∧ b ∈ symptoms) →
      (check_contradictory_symptoms kb symptoms).1 = false
      ∧ ∃ m ∈ (check_contradictory_symptoms kb symptoms).2, reason <:+: m)
    ∧ ((∀ rule ∈ kb.validation_rules.contradictory_symptoms,
          (symptoms.filter (fun s => s ∈ rule.symptoms)).length ≤ 1) →
      check_contradictory_symptoms kb symptoms = (true, [])) := by
  constructor
  · rintro ⟨ha, hb⟩
    have hmem : ∀ x ∈ ([a, b] : List Str), x ∈ symptoms → x ∈
        symptoms.filter (fun s => decide (s ∈ ([a, b] : List Str))) := by
      intro x hx hxs
      exact List.mem_filter.mpr ⟨hxs, decide_eq_true hx⟩
    have haf := hmem a (by simp) ha
    have hbf := hmem b (by simp) hb
    set found := symptoms.filter (fun s => decide (s ∈ ([a, b] : List Str))) with hfound
    have hlen : 1 < found.length := by
      have h1 : b ∈ found.erase a := (List.mem_erase_of_ne (Ne.symm hab)).mpr hbf
      have h2 : (found.erase a).length = found.length - 1 :=
        List.length_erase_of_mem haf
      have h3 : 0 < (found.erase a).length := List.length_pos.mpr (List.ne_nil_of_mem h1)
      omega
    have hmsg : (reason ++ lit (": ") ++ pyJoin (lit (", ")) found)
        ∈ (check_contradictory_symptoms kb symptoms).2 := by
      unfold check_contradictory_symptoms
      simp only
      refine List.mem_filterMap.mpr ⟨ContraRule.mk [a, b] reason, hrule, ?_⟩
      rw [if_pos hlen]
    refine ⟨?_, _, hmsg, ?_⟩
    · unfold check_contradictory_symptoms at hmsg ⊢
      simp only at hmsg ⊢
      rw [decide_eq_false_iff_not]
      intro hnil
      rw [hnil] at hmsg
      exact (List.not_mem_nil _) hmsg
    · rw [List.append_assoc]
      exact ⟨[], _, rfl⟩
  · intro hall
    have hnil : (kb.validation_rules.contradictory_symptoms.filterMap (fun rule =>
        let found_symptoms := symptoms.filter (fun s => s ∈ rule.symptoms)
        if found_symptoms.length > 1 then
          some (rule.reason ++ lit (": ") ++ pyJoin (lit (", ")) found_symptoms)
        else none)) = [] := by
      refine List.filterMap_eq_nil_iff.mpr ?_
      intro rule hr
      simp only
      rw [if_neg]
      exact Nat.not_lt.mpr (hall rule hr)
    unfold check_contradictory_symptoms
    simp only [hnil]
    rfl

/-- Claim C7, witness: the constipation/diarrhea rule of the sample knowledge
base fires on a list containing both symptoms. -/
theorem c7_witness :
    (check_contradictory_symptoms kbA [lit ("constipation"), lit ("diarrhea")]).1 = false
    ∧ ∃ m ∈ (check_contradictory_symptoms kbA [lit ("constipation"), lit ("diarrhea")]).2,
        lit ("Constipation and diarrhea rarely occur simultaneously") <:+: m :=
  (c7_contradiction_rule kbA [lit ("constipation"), lit ("diarrhea")]
    (lit ("constipation")) (lit ("diarrhea"))
    (lit ("Constipation and diarrhea rarely occur simultaneously"))
    (by decide) (by decide) (by decide)).1 ⟨by decide, by decide⟩

/-- Claim C10: `check_contradictory_symptoms` counts occurrences, not
distinct symptoms — an input containing one rule-listed symptom twice (and no
other symptom of that rule) is reported as contradictory. -/
theorem c10_duplicate_counts (kb : KnowledgeBase) (symptoms : List Str)
    (rule : ContraRule) (a : Str)
    (hrule : rule ∈ kb.validation_rules.contradictory_symptoms)
    (ha : a ∈ rule.symptoms)
    (hcount : 2 ≤ symptoms.count a)
    (honly : ∀ x ∈ symptoms, x ∈ rule.symptoms → x = a) :
    (check_contradictory_symptoms kb symptoms).1 = false
    ∧ ∃ m ∈ (check_contradictory_symptoms kb symptoms).2, rule.reason <:+: m := by
  set found := symptoms.filter (fun s => decide (s ∈ rule.symptoms)) with hfound
  have hcf : found.count a = symptoms.count a :=
    List.count_filter (by exact decide_eq_true ha)
  have hlen : 1 < found.length := by
    have := List.count_le_length a found
    omega
  have hmsg : (rule.reason ++ lit (": ") ++ pyJoin (lit (", ")) found)
      ∈ (check_contradictory_symptoms kb symptoms).2 := by
    unfold check_contradictory_symptoms
    simp only
    refine List.mem_filterMap.mpr ⟨rule, hrule, ?_⟩
    rw [if_pos hlen]
  refine ⟨?_, _, hmsg, ?_⟩
  · unfold check_contradictory_symptoms at hmsg ⊢
    simp only at hmsg ⊢
    rw [decide_eq_false_iff_not]
    intro hnil
    rw [hnil] at hmsg
    exact (List.not_mem_nil _) hmsg
  · rw [List.append_assoc]
    exact ⟨[], _, rfl⟩

/-- Claim C10, witness: the duplicated `constipation` entry alone triggers the
constipation/diarrhea rule. -/
theorem c10_witness :
    (check_contradictory_symptoms kbA [lit ("constipation"), lit ("constipation")]).1 = false
    ∧ ∃ m ∈ (check_contradictory_symptoms kbA [lit ("constipation"), lit ("constipation")]).2,
        lit ("Constipation and diarrhea rarely occur simultaneously") <:+: m :=
  c10_duplicate_counts kbA [lit ("constipation"), lit ("constipation")]
    (ContraRule.mk [lit ("constipation"), lit ("diarrhea")]
      (lit ("Constipation and diarrhea rarely occur simultaneously")))
    (lit ("constipation")) (by decide) (by decide) (by decide) (by decide)

/-- Claim C4: when comprehensive validation rejects the input,
`generate_patient_case` returns the same `status = error` record with the
validation errors in the message for every collaborator environment — the
external text-completion collaborator is never consulted. -/
theorem c4_validation_gate (kb : KnowledgeBase) (env₁ env₂ : GenEnv)
    (specialty : Str) (symptoms : List Str) (demographics : Demographics)
    (severity : Str)
    (h : (comprehensive_validation kb specialty symptoms
      (demographics.age.getD 0) (demographics.gender.getD []) severity).is_valid = false) :
    generate_patient_case kb env₁ specialty symptoms demographics severity
      = generate_patient_case kb env₂ specialty symptoms demographics severity
    ∧ (generate_patient_case kb env₁ specialty symptoms demographics severity).status
        = lit ("error")
    ∧ (generate_patient_case kb env₁ specialty symptoms demographics severity).message
        = some (lit ("Validation failed: ") ++ pyJoin (lit (", "))
            (comprehensive_validation kb specialty symptoms
              (demographics.age.getD 0) (demographics.gender.getD []) severity).errors)
    ∧ (generate_patient_case kb env₁ specialty symptoms demographics severity).validation_errors
        = some (comprehensive_validation kb specialty symptoms
            (demographics.age.getD 0) (demographics.gender.getD []) severity).errors := by
  unfold generate_patient_case
  simp [h]

/-- Claim C4, witness: an unknown specialty is rejected identically under a
working and a failing collaborator environment. -/
theorem c4_witness :
    (comprehensive_validation kbA (lit ("podiatry")) [lit ("chest_pain")]
      (demo55.age.getD 0) (demo55.gender.getD []) (lit ("moderate"))).is_valid = false
    ∧ generate_patient_case kbA envOk (lit ("podiatry")) [lit ("chest_pain")] demo55 (lit ("moderate"))
        = generate_patient_case kbA envDown (lit ("podiatry")) [lit ("chest_pain")] demo55 (lit ("moderate"))
    ∧ (generate_patient_case kbA envOk (lit ("podiatry")) [lit ("chest_pain")] demo55 (lit ("moderate"))).status
        = lit ("error") :=
  ⟨by decide,
    (c4_validation_gate kbA envOk envDown (lit ("podiatry")) [lit ("chest_pain")]
      demo55 (lit ("moderate")) (by decide)).1,
    (c4_validation_gate kbA envOk envDown (lit ("podiatry")) [lit ("chest_pain")]
      demo55 (lit ("moderate")) (by decide)).2.1⟩

/-- Claim C1, counterexample: `headache` is a known symptom outside
cardiology's `appropriate` set (required ∪ optional), yet
`validate_symptom_specialty_combination` ACCEPTS the combination
(`is_valid = true`) — the no-typical-symptom situation is a warning in the
code, not an error. -/
theorem c1_counterexample :
    List.lookup (lit ("cardiology")) kbA.validation_rules.symptom_specialty_combinations
      = some (SpecRules.mk [lit ("chest_pain")] [lit ("shortness_breath")] [lit ("rash")])
    ∧ (validate_specialty kbA (lit ("cardiology"))).1 = true
    ∧ (validate_symptoms kbA [lit ("headache")]).1 = true
    ∧ lit ("headache") ∉ ([lit ("chest_pain")] ++ [lit ("shortness_breath")] : List Str)
    ∧ (validate_symptom_specialty_combination kbA (lit ("cardiology")) [lit ("headache")]).1 = true := by
  decide

/-- Claim C1, amended: when a known specialty with rules receives known
symptoms none of which lies in `appropriate = required ∪ optional`, the code
emits the "No typical symptoms found" message as a WARNING and — provided no
symptom is contraindicated and the symptom count stays within the
specialty's bounds — still returns `is_valid = true`; the combination is
accepted, not rejected. -/
theorem c1_no_typical_is_warning (kb : KnowledgeBase) (specialty : Str)
    (symptoms : List Str) (r : SpecRules)
    (hs : (validate_specialty kb specialty).1 = true)
    (hy : (validate_symptoms kb symptoms).1 = true)
    (hr : List.lookup specialty kb.validation_rules.symptom_specialty_combinations = some r)
    (happ : ∀ s ∈ symptoms, s ∉ r.required_symptoms ++ r.optional_symptoms)
    (hcon : ∀ s ∈ symptoms, s ∉ r.contraindicated_symptoms)
    (hcount : comboCountErrors kb specialty symptoms = []) :
    (validate_symptom_specialty_combination kb specialty symptoms).1 = true
    ∧ (lit ("No typical symptoms found for ") ++ specialty
        ++ lit (". Consider symptoms from: ")
        ++ pyJoin (lit (", ")) ((r.required_symptoms ++ r.optional_symptoms).take 5))
      ∈ (validate_symptom_specialty_combination kb specialty symptoms).2 := by
  have hfilcon : symptoms.filter (fun s => decide (s ∈ r.contraindicated_symptoms)) = [] :=
    List.filter_eq_nil_iff.mpr (fun a hax => by simpa using hcon a hax)
  have hfilapp : symptoms.filter
      (fun s => decide (s ∈ r.required_symptoms ++ r.optional_symptoms)) = [] :=
    List.filter_eq_nil_iff.mpr (fun a hax => by simpa using happ a hax)
  have hw : ∃ w2, comboRuleMessages kb specialty symptoms =
      ([], (lit ("No typical symptoms found for ") ++ specialty
        ++ lit (". Consider symptoms from: ")
        ++ pyJoin (lit (", ")) ((r.required_symptoms ++ r.optional_symptoms).take 5)) :: w2) := by
    unfold comboRuleMessages
    rw [hr]
    dsimp only
    rw [hfilcon, hfilapp]
    rw [if_neg (by simp), if_pos rfl]
    exact ⟨_, rfl⟩
  obtain ⟨w2, hw⟩ := hw
  unfold validate_symptom_specialty_combination
  simp [hs, hy, hw, hcount]

/-- Claim C1, witness: the counterexample input satisfies every hypothesis of
the amended statement. -/
theorem c1_witness :
    (validate_symptom_specialty_combination kbA (lit ("cardiology")) [lit ("headache")]).1 = true
    ∧ (lit ("No typical symptoms found for ") ++ lit ("cardiology")
        ++ lit (". Consider symptoms from: ")
        ++ pyJoin (lit (", ")) (([lit ("chest_pain")] ++ [lit ("shortness_breath")]).take 5))
      ∈ (validate_symptom_specialty_combination kbA (lit ("cardiology")) [lit ("headache")]).2 :=
  c1_no_typical_is_warning kbA (lit ("cardiology")) [lit ("headache")]
    (SpecRules.mk [lit ("chest_pain")] [lit ("shortness_breath")] [lit ("rash")])
    (by decide) (by decide) (by decide) (by decide) (by decide) (by decide)

theorem validate_specialty_errors_ne (kb : KnowledgeBase) (sp : Str)
    (h : (validate_specialty kb sp).1 = false) : (validate_specialty kb sp).2 ≠ [] := by
  unfold validate_specialty at h ⊢
  by_cases h0 : sp = []
  · rw [if_pos h0]
    simp
  · rw [if_neg h0] at h ⊢
    cases hl : List.lookup sp kb.specialties with
    | none => simp
    | some d =>
      rw [hl] at h
      dsimp only at h ⊢
      split
      · next hcond => simpa using hcond
      · next hcond =>
        rw [if_neg hcond] at h
        simp at h

theorem validate_symptoms_errors_ne (kb : KnowledgeBase) (sy : List Str)
    (h : (validate_symptoms kb sy).1 = false) : (validate_symptoms kb sy).2 ≠ [] := by
  unfold validate_symptoms at h ⊢
  by_cases h0 : sy = []
  · rw [if_pos h0]
    simp
  · rw [if_neg h0] at h ⊢
    dsimp only at h ⊢
    split
    · next hcond => simp
    · next hcond =>
      rw [if_neg hcond] at h
      simp at h

theorem check_contra_errors_ne (kb : KnowledgeBase) (sy : List Str)
    (h : (check_contradictory_symptoms kb sy).1 = false) :
    (check_contradictory_symptoms kb sy).2 ≠ [] := by
  unfold check_contradictory_symptoms at h ⊢
  dsimp only at h ⊢
  intro hnil
  rw [hnil] at h
  simp at h

theorem age_errors_ne (kb : KnowledgeBase) (sp : Str) (age : Int) (sev : Str)
    (h : (validate_age_appropriate_conditions kb sp age sev).1 = false) :
    (validate_age_appropriate_conditions kb sp age sev).2 ≠ [] := by
  unfold validate_age_appropriate_conditions at h ⊢
  by_cases hc : ¬ (0 ≤ age ∧ age ≤ 120)
  · rw [if_pos hc]
    simp
  · rw [if_neg hc] at h
    simp at h

theorem severity_errors_ne (kb : KnowledgeBase) (sev : Str) (sy : List Str)
    (h : (validate_severity_symptom_compatibility kb sev sy).1 = false) :
    (validate_severity_symptom_compatibility kb sev sy).2 ≠ [] := by
  unfold validate_severity_symptom_compatibility at h ⊢
  by_cases hc : sev ∉ kb.severity_descriptions
  · rw [if_pos hc]
    simp
  · rw [if_neg hc] at h
    simp at h

/-- With the two basic checks passing, the combination check is the pair of
its rule/count errors and its warnings. -/
theorem combo_eq (kb : KnowledgeBase) (sp : Str) (sy : List Str)
    (hs : (validate_specialty kb sp).1 = true)
    (hy : (validate_symptoms kb sy).1 = true) :
    validate_symptom_specialty_combination kb sp sy
      = (decide (((comboRuleMessages kb sp sy).1 ++ comboCountErrors kb sp sy) = []),
         ((comboRuleMessages kb sp sy).1 ++ comboCountErrors kb sp sy)
           ++ (comboRuleMessages kb sp sy).2) := by
  unfold validate_symptom_specialty_combination
  simp [hs, hy]

/-- Every error message of the combination check (contraindication and count
bound messages) contains one of the classification keywords. -/
theorem comboErrors_msgIsError (kb : KnowledgeBase) (sp : Str) (sy : List Str) :
    ∀ m ∈ (comboRuleMessages kb sp sy).1 ++ comboCountErrors kb sp sy,
      msgIsError m = true := by
  intro m hm
  rcases List.mem_append.mp hm with h | h
  · unfold comboRuleMessages at h
    cases hl : List.lookup sp kb.validation_rules.symptom_specialty_combinations with
    | none =>
      rw [hl] at h
      simp at h
    | some r =>
      rw [hl] at h
      dsimp only at h
      split at h
      · rw [List.mem_singleton] at h
        subst h
        exact msgIsError_contra _
      · simp at h
  · unfold comboCountErrors at h
    cases hl : List.lookup sp kb.validation_rules.minimum_maximum_symptoms with
    | none =>
      rw [hl] at h
      simp at h
    | some mm =>
      rw [hl] at h
      dsimp only at h
      split at h
      · rw [List.mem_singleton] at h
        subst h
        exact msgIsError_toofew _
      · split at h
        · rw [List.mem_singleton] at h
          subst h
          exact msgIsError_toomany _
        · simp at h

/-- Claim C5, counterexample: with a knowledge base whose symptom table
contains the key `too many headaches`, a perfectly valid request yields
`is_valid = true` while the keyword classifier has misrouted the "Unusual
symptoms" warning into `errors` — `is_valid` is true yet `errors` is
non-empty, refuting the claimed equivalence. -/
theorem c5_counterexample :
    (comprehensive_validation kbTooMany (lit ("neurology"))
      [lit ("headache"), lit ("too many headaches")] 30 (lit ("f")) (lit ("moderate"))).is_valid = true
    ∧ (comprehensive_validation kbTooMany (lit ("neurology"))
      [lit ("headache"), lit ("too many headaches")] 30 (lit ("f")) (lit ("moderate"))).errors
      = [lit ("Unusual symptoms for neurology: too many headaches")] := by
  decide

/-- Claim C5, amended: unconditionally, `is_valid = false` implies that
`errors` is non-empty; and `is_valid` is true iff `errors` is empty provided
no warning message of the combination check contains one of the
classification keywords `contraindicated` / `too few` / `too many` (which
can only happen when a specialty or symptom name embeds such a phrase). -/
theorem c5_valid_iff_errors (kb : KnowledgeBase) (sp : Str) (sy : List Str)
    (age : Int) (g sev : Str) :
    ((comprehensive_validation kb sp sy age g sev).is_valid = false
      → (comprehensive_validation kb sp sy age g sev).errors ≠ [])
    ∧ ((∀ m ∈ (comboRuleMessages kb sp sy).2, msgIsError m = false)
      → ((comprehensive_validation kb sp sy age g sev).is_valid = true
        ↔ (comprehensive_validation kb sp sy age g sev).errors = [])) := by
  have hcore : (comprehensive_validation kb sp sy age g sev).errors = []
      → (comprehensive_validation kb sp sy age g sev).is_valid = true := by
    show compErrors kb sp sy age sev = [] → compIsValid kb sp sy age sev = true
    intro he
    simp only [compErrors] at he
    have h0 := List.append_eq_nil.mp he
    have h1 := List.append_eq_nil.mp h0.1
    have h2 := List.append_eq_nil.mp h1.1
    have h3 := List.append_eq_nil.mp h2.1
    have h4 := List.append_eq_nil.mp h3.1
    have hb : (validate_specialty kb sp).1 = true := by
      cases hx : (validate_specialty kb sp).1 with
      | true => rfl
      | false =>
        have hy := h4.1
        rw [hx] at hy
        simp at hy
        exact absurd hy (validate_specialty_errors_ne kb sp hx)
    have hs : (validate_symptoms kb sy).1 = true := by
      cases hx : (validate_symptoms kb sy).1 with
      | true => rfl
      | false =>
        have hy := h4.2
        rw [hx] at hy
        simp at hy
        exact absurd hy (validate_symptoms_errors_ne kb sy hx)
    have hcombo : (validate_symptom_specialty_combination kb sp sy).1 = true := by
      have hy := h3.2
      rw [hb, hs] at hy
      simp only [Bool.and_self, if_true] at hy
      rw [combo_eq kb sp sy hb hs] at hy
      dsimp only at hy
      rw [List.filter_append,
        List.filter_eq_self.mpr (comboErrors_msgIsError kb sp sy)] at hy
      have herrs := (List.append_eq_nil.mp hy).1
      rw [combo_eq kb sp sy hb hs]
      simp [herrs]
    have hct : (check_contradictory_symptoms kb sy).1 = true := by
      cases hx : (check_contradictory_symptoms kb sy).1 with
      | true => rfl
      | false =>
        have hy := h2.2
        rw [hs, hx] at hy
        simp at hy
        exact absurd hy (check_contra_errors_ne kb sy hx)
    have ha : (validate_age_appropriate_conditions kb sp age sev).1 = true := by
      cases hx : (validate_age_appropriate_conditions kb sp age sev).1 with
      | true => rfl
      | false =>
        have hy := h1.2
        rw [hx] at hy
        simp at hy
        exact absurd hy (age_errors_ne kb sp age sev hx)
    have hsv : (validate_severity_symptom_compatibility kb sev sy).1 = true := by
      cases hx : (validate_severity_symptom_compatibility kb sev sy).1 with
      | true => rfl
      | false =>
        have hy := h0.2
        rw [hx] at hy
        simp at hy
        exact absurd hy (severity_errors_ne kb sev sy hx)
    simp [compIsValid, hb, hs, hcombo, hct, ha, hsv]
  constructor
  · intro hv hnil
    have ht := hcore hnil
    rw [ht] at hv
    simp at hv
  · intro hkw
    have hfil : (comboRuleMessages kb sp sy).2.filter msgIsError = [] :=
      List.filter_eq_nil_iff.mpr (fun m hm => by rw [hkw m hm]; simp)
    constructor
    · intro hv
      show compErrors kb sp sy age sev = []
      rw [show (comprehensive_validation kb sp sy age g sev).is_valid
          = compIsValid kb sp sy age sev from rfl] at hv
      simp only [compIsValid, Bool.and_eq_true] at hv
      obtain ⟨⟨⟨⟨⟨hb, hs⟩, hv2⟩, hv3⟩, ha⟩, hsev⟩ := hv
      have hcombo1 : (validate_symptom_specialty_combination kb sp sy).1 = true := by
        rw [hb, hs] at hv2
        simpa using hv2
      have herrs : (comboRuleMessages kb sp sy).1 ++ comboCountErrors kb sp sy = [] := by
        rw [combo_eq kb sp sy hb hs] at hcombo1
        simpa using hcombo1
      have hct : (check_contradictory_symptoms kb sy).1 = true := by
        rw [hs] at hv3
        simpa using hv3
      simp [compErrors, hb, hs, combo_eq kb sp sy hb hs, herrs, hct, ha, hsev, hfil]
    · exact hcore

/-- Claim C5, witness: the first (unconditional) part applied at a rejected
request, and the guarded equivalence applied at the typical valid request,
where no combination warning exists at all. -/
theorem c5_witness :
    (comprehensive_validation kbA (lit ("podiatry")) [lit ("chest_pain")]
      55 (lit ("male")) (lit ("moderate"))).errors ≠ []
    ∧ ((comprehensive_validation kbA (lit ("cardiology"))
        [lit ("chest_pain"), lit ("shortness_breath")] 55 (lit ("male")) (lit ("moderate"))).is_valid = true
      ↔ (comprehensive_validation kbA (lit ("cardiology"))
        [lit ("chest_pain"), lit ("shortness_breath")] 55 (lit ("male")) (lit ("moderate"))).errors = []) :=
  ⟨(c5_valid_iff_errors kbA (lit ("podiatry")) [lit ("chest_pain")]
      55 (lit ("male")) (lit ("moderate"))).1 (by decide),
    (c5_valid_iff_errors kbA (lit ("cardiology"))
      [lit ("chest_pain"), lit ("shortness_breath")] 55 (lit ("male")) (lit ("moderate"))).2
      (by decide)⟩

theorem simpleError_status (m : Str) : (simpleError m).status = lit ("error") := rfl

/-- When `validate_ai_response` passes, the parsed case has a truthy
`diagnosis` entry (the required-field loop would otherwise have produced a
message). -/
theorem validate_ai_ok_diagnosis (kvs : List (Str × JValue)) (es : List Str)
    (h : validate_ai_response kvs = Except.ok (true, es)) :
    ∃ d, jGet kvs (lit ("diagnosis")) = some d ∧ jTruthy d = true := by
  unfold validate_ai_response at h
  cases hlc1 : lenCheck kvs (lit ("diagnosis")) 3 (lit ("diagnosis is too short")) with
  | error u =>
    rw [hlc1] at h
    simp at h
  | ok e5v =>
    cases hlc2 : lenCheck kvs (lit ("patient_presentation")) 20
        (lit ("patient_presentation is too short - should be a detailed description")) with
    | error u =>
      rw [hlc1, hlc2] at h
      simp at h
    | ok e6v =>
      rw [hlc1, hlc2] at h
      dsimp only at h
      injection h with hpair
      rw [Prod.mk.injEq] at hpair
      have hdec := hpair.1
      rw [decide_eq_true_eq] at hdec
      have h0 := List.append_eq_nil.mp hdec
      have h1 := List.append_eq_nil.mp h0.1
      have h2 := List.append_eq_nil.mp h1.1
      have h3 := List.append_eq_nil.mp h2.1
      have h4 := List.append_eq_nil.mp h3.1
      have hdia := List.filterMap_eq_nil_iff.mp h4.1 (lit ("diagnosis"))
        (by simp [REQUIRED_FIELDS])
      cases hj : jGet kvs (lit ("diagnosis")) with
      | none =>
        rw [hj] at hdia
        simp at hdia
      | some v =>
        rw [hj] at hdia
        dsimp only at hdia
        cases ht : jTruthy v with
        | false =>
          rw [ht] at hdia
          simp at hdia
        | true => exact ⟨v, rfl, ht⟩

/-- Claim C9: whenever `generate_patient_case` returns `status = success`, the
payload carries the hidden diagnosis of the parsed AI case twice — as
`patient_data.patient_details.illness` and as `case_summary.diagnosis` — with
no redaction performed by the engine. -/
theorem c9_success_contains_diagnosis (kb : KnowledgeBase) (env : GenEnv)
    (specialty : Str) (symptoms : List Str) (demographics : Demographics)
    (severity : Str)
    (h : (generate_patient_case kb env specialty symptoms demographics severity).status
      = lit ("success")) :
    ∃ pd cs d ai jtext kvs,
      (generate_patient_case kb env specialty symptoms demographics severity).patient_data
        = some pd
      ∧ (generate_patient_case kb env specialty symptoms demographics severity).case_summary
        = some cs
      ∧ pd.patient_details.illness = d
      ∧ cs.diagnosis = d
      ∧ jTruthy d = true
      ∧ env.aiResponse = Except.ok ai
      ∧ extractJson ai = some jtext
      ∧ env.jsonLoads jtext = Except.ok (JValue.jdict kvs)
      ∧ jGet kvs (lit ("diagnosis")) = some d := by
  unfold generate_patient_case at h ⊢
  dsimp only at h ⊢
  cases hval : (comprehensive_validation kb specialty symptoms
      (demographics.age.getD 0) (demographics.gender.getD []) severity).is_valid with
  | false =>
    try rw [hval] at h
    rw [if_neg (by simp)] at h
    exact absurd (show lit ("error") = lit ("success") from h) (by decide)
  | true =>
    try rw [hval] at h
    rw [if_pos rfl] at h ⊢
    cases hk : env.apiKey with
    | none =>
      try rw [hk] at h
      exact absurd (show lit ("error") = lit ("success") from h) (by decide)
    | some key =>
      try rw [hk] at h
      dsimp only at h ⊢
      cases hci : env.clientInit with
      | error e =>
        try rw [hci] at h
        exact absurd (show lit ("error") = lit ("success") from h) (by decide)
      | ok u =>
        try rw [hci] at h
        dsimp only at h ⊢
        cases hair : env.aiResponse with
        | error e =>
          try rw [hair] at h
          exact absurd (show lit ("error") = lit ("success") from h) (by decide)
        | ok ai =>
          try rw [hair] at h
          dsimp only at h ⊢
          cases hej : extractJson ai with
          | none =>
            try rw [hej] at h
            exact absurd (show lit ("error") = lit ("success") from h) (by decide)
          | some jtext =>
            try rw [hej] at h
            dsimp only at h ⊢
            cases hjl : env.jsonLoads jtext with
            | error pe =>
              try rw [hjl] at h
              exact absurd (show lit ("error") = lit ("success") from h) (by decide)
            | ok v =>
              try rw [hjl] at h
              cases v with
              | jdict kvs =>
                dsimp only at h ⊢
                cases hvr : validate_ai_response kvs with
                | error u =>
                  try rw [hvr] at h
                  exact absurd (show lit ("error") = lit ("success") from h) (by decide)
                | ok vres =>
                  try rw [hvr] at h
                  obtain ⟨ok, verrs⟩ := vres
                  dsimp only at h ⊢
                  cases hok : ok with
                  | false =>
                    try rw [hok] at h
                    rw [if_neg (by simp)] at h
                    exact absurd (show lit ("error") = lit ("success") from h) (by decide)
                  | true =>
                    try rw [hok] at h
                    rw [if_pos rfl] at h ⊢
                    rw [hok] at hvr
                    obtain ⟨d, hd, htruthy⟩ := validate_ai_ok_diagnosis kvs verrs hvr
                    refine ⟨_, _, d, ai, jtext, kvs, rfl, rfl, ?_, ?_, htruthy, rfl, hej, hjl, hd⟩
                    · show ((jGet kvs (lit ("diagnosis"))).getD
                        (JValue.jstr (lit ("Unknown condition")))) = d
                      rw [hd]
                      rfl
                    · show ((jGet kvs (lit ("diagnosis"))).getD
                        (JValue.jstr (lit ("Unknown")))) = d
                      rw [hd]
                      rfl
              | jstr s =>
                exact absurd (show lit ("error") = lit ("success") from h) (by decide)
              | jnum n =>
                exact absurd (show lit ("error") = lit ("success") from h) (by decide)
              | jbool b =>
                exact absurd (show lit ("error") = lit ("success") from h) (by decide)
              | jnull =>
                exact absurd (show lit ("error") = lit ("success") from h) (by decide)
              | jlist xs =>
                exact absurd (show lit ("error") = lit ("success") from h) (by decide)

/-- Claim C9, witness: a complete successful generation run on the sample
knowledge base exposes the diagnosis in both payload locations. -/
theorem c9_witness :
    (generate_patient_case kbA envOk (lit ("cardiology"))
      [lit ("chest_pain"), lit ("shortness_breath")] demo55 (lit ("moderate"))).status
      = lit ("success")
    ∧ ∃ pd cs d ai jtext kvs,
      (generate_patient_case kbA envOk (lit ("cardiology"))
        [lit ("chest_pain"), lit ("shortness_breath")] demo55 (lit ("moderate"))).patient_data
        = some pd
      ∧ (generate_patient_case kbA envOk (lit ("cardiology"))
        [lit ("chest_pain"), lit ("shortness_breath")] demo55 (lit ("moderate"))).case_summary
        = some cs
      ∧ pd.patient_details.illness = d
      ∧ cs.diagnosis = d
      ∧ jTruthy d = true
      ∧ envOk.aiResponse = Except.ok ai
      ∧ extractJson ai = some jtext
      ∧ envOk.jsonLoads jtext = Except.ok (JValue.jdict kvs)
      ∧ jGet kvs (lit ("diagnosis")) = some d :=
  ⟨by decide,
    c9_success_contains_diagnosis kbA envOk (lit ("cardiology"))
      [lit ("chest_pain"), lit ("shortness_breath")] demo55 (lit ("moderate")) (by decide)⟩

end DoctorSim
